import Mathlib

/- Verification development for the SummaryTelegramBot repository.

The JavaScript sources are shallowly embedded as executable Lean functions:
  * `src/summaryService.js` (chunked summarization pipeline, fallback export),
  * `src/database.js` (schedule store, quota store, next-run computation),
  * `src/scheduler.js` (per-schedule processing step, post-fire rescheduling),
  * `src/commandHandler.js` (`parseTimePeriod`, the `/summary` handler).

Modelling conventions, stated once here:
  * JavaScript strings are Lean `String`s; the JS operations `trim`,
    `toLowerCase` and `includes` are re-implemented over `String.data`
    (`jsTrim`, `jsToLower`, `strIncludes`) so that every definition
    evaluates inside the kernel.
  * Unix timestamps are `Int` (seconds).  Calendar arithmetic done by
    `moment-timezone` is modelled for the UTC zone (offset 0, no DST),
    which is the store default and the zone used by the spec scenarios;
    the rendering of a timestamp to an `HH:MM` string is abstracted as a
    function parameter `fmtHM : Int → String`.
  * The OpenAI collaborator is an oracle `llm : Nat → LLMReply` giving the
    outcome of the k-th chat-completion call of a run; a thrown error is
    `LLMReply.err` carrying `error.message`.  Call counts are threaded
    explicitly, so "number of model calls" is observable.
  * The file system always succeeds (the fallback export write is modelled
    as pure construction of the artifact's content).
  * SQLite tables are association lists of row structures; each SQL
    statement is embedded as the corresponding pure list transformation.
-/

namespace SummaryTelegramBot

/-! ## JavaScript string primitives, re-implemented executably -/

/-- Characters of a JS `String.prototype.trim()`: drop whitespace from both ends. -/
def trimChars (cs : List Char) : List Char :=
  ((cs.dropWhile Char.isWhitespace).reverse.dropWhile Char.isWhitespace).reverse

/-- JS `s.trim()`. -/
def jsTrim (s : String) : String := String.mk (trimChars s.data)

/-- JS `s.toLowerCase()` (ASCII-adequate for the tokens this code compares). -/
def jsToLower (s : String) : String := String.mk (s.data.map Char.toLower)

/-- Does `cs` start with `pat`? -/
def startsWithChars : List Char → List Char → Bool
  | [], _ => true
  | _ :: _, [] => false
  | p :: ps, c :: cs => p == c && startsWithChars ps cs

/-- Does the character list contain `pat` as a contiguous sub-list? -/
def hasSubChars (pat : List Char) : List Char → Bool
  | [] => pat.isEmpty
  | c :: cs => startsWithChars pat (c :: cs) || hasSubChars pat cs

/-- JS `s.includes(pat)`. -/
def strIncludes (s pat : String) : Bool := hasSubChars pat.data s.data

/-- JS truthiness of a nullable string: `null`/`undefined` and `""` are falsy. -/
def optTruthy : Option String → Bool
  | none => false
  | some s => s ≠ ""

/-- JS `a || b` for a nullable string with default `b`. -/
def jsOrElse (o : Option String) (d : String) : String :=
  match o with
  | none => d
  | some s => if s = "" then d else s

/-! ## Data model: stored messages

Mirrors a row of the `messages` table (`database.js`); only the fields the
summary pipeline reads are kept.  `username`, `first_name` and `text` are
nullable columns. -/

structure Msg where
  message_id : Nat
  username : Option String
  first_name : Option String
  text : Option String
  timestamp : Int
deriving Repr, DecidableEq

/-! ## Chunking (`summaryService.js`, `chunkMessages`)

The source is the loop
`for (let i = 0; i < messages.length; i += chunkSize) chunks.push(messages.slice(i, i + chunkSize))`.
It is embedded with an explicit fuel equal to the list length so that the
definition is structurally recursive and kernel-evaluable; the source only
ever invokes it with `chunkSize = 100`. -/

def chunkMessagesAux {α : Type} (chunkSize : Nat) : Nat → List α → List (List α)
  | _, [] => []
  | 0, _ :: _ => []
  | fuel + 1, x :: xs =>
    (x :: xs).take chunkSize :: chunkMessagesAux chunkSize fuel ((x :: xs).drop chunkSize)

def chunkMessages {α : Type} (messages : List α) (chunkSize : Nat) : List (List α) :=
  chunkMessagesAux chunkSize messages.length messages

/-! ## Message rendering (`summaryService.js`) -/

/-- Display name used by `formatMessagesForAI`:
`msg.username || msg.first_name || 'Unknown'`, with an `@` prefix when a
username or first name is present. -/
def displayName (m : Msg) : String :=
  if optTruthy m.username then "@" ++ m.username.getD ""
  else if optTruthy m.first_name then "@" ++ m.first_name.getD ""
  else "Unknown"

/-- Display name used by `formatMessagesForTextFile` (no `@` prefix). -/
def displayNameFile (m : Msg) : String :=
  if optTruthy m.username then m.username.getD ""
  else if optTruthy m.first_name then m.first_name.getD ""
  else "Unknown"

/-- First filter of both renderers: `msg.text && msg.text.trim().length > 0`. -/
def hasText (m : Msg) : Bool :=
  optTruthy m.text && 0 < (jsTrim (m.text.getD "")).length

/-- Second filter of `formatMessagesForAI`:
`!msg.text.includes('#ChatSummary')` (feedback-loop guard). -/
def notAlreadySummary (m : Msg) : Bool :=
  !(strIncludes (m.text.getD "") "#ChatSummary")

/-- One transcript line of `formatMessagesForAI`:
an `[HH:MM]` stamp (timezone rendering abstracted as `fmtHM`), the
`@`-prefixed display name, and the raw text. -/
def formatLine (fmtHM : Int → String) (m : Msg) : String :=
  "[" ++ fmtHM m.timestamp ++ "] " ++ displayName m ++ ": " ++ m.text.getD ""

/-- `formatMessagesForAI(messages, timezone)`: filter, render, join by `\n`. -/
def formatMessagesForAI (fmtHM : Int → String) (messages : List Msg) : String :=
  String.intercalate "\n" (((messages.filter hasText).filter notAlreadySummary).map (formatLine fmtHM))

/-- `estimateTokenCount(text)`: `Math.ceil(text.length / 4)`. -/
def estimateTokenCount (text : String) : Nat := (text.length + 3) / 4

/-- `this.MAX_MESSAGES_PER_CHUNK`. -/
def MAX_MESSAGES_PER_CHUNK : Nat := 100

/-- `this.MAX_TOKENS_PER_REQUEST`. -/
def MAX_TOKENS_PER_REQUEST : Nat := 3000

/-- `getTimeRange(messages)`: timestamps of `messages[0]` and
`messages[messages.length - 1]` (`none` models the `'No messages'` branch).
The `moment` rendering of the two stamps is kept as the raw pair. -/
def getTimeRange (messages : List Msg) : Option (Int × Int) :=
  match messages.head?, messages.getLast? with
  | some a, some b => some (a.timestamp, b.timestamp)
  | _, _ => none

/-- Content of the text-file export written by `generateTextFileFallback` /
`formatMessagesForTextFile`, together with the tags placed in its header and
in the returned notice.  `generatedAt` models the `moment()` timestamp used
both in the header and in the freshly generated file name. -/
structure FallbackArtifact where
  generatedAt : Int
  totalMessages : Nat
  timeRange : Option (Int × Int)
  transcript : List (Int × String × String)
deriving Repr, DecidableEq

/-- `generateTextFileFallback(messages, options)`: render the whole message
set (file-system write modelled as always succeeding). -/
def generateTextFileFallback (nowTs : Int) (messages : List Msg) : FallbackArtifact :=
  { generatedAt := nowTs
    totalMessages := messages.length
    timeRange := getTimeRange messages
    transcript := (messages.filter hasText).map fun m =>
      (m.timestamp, displayNameFile m, m.text.getD "") }

/-! ## The language-model collaborator and the pipeline (`summaryService.js`) -/

/-- Outcome of one `openai.chat.completions.create` call: the returned text,
or the message of the error it threw. -/
inductive LLMReply where
  | ok (text : String)
  | err (emsg : String)
deriving Repr, DecidableEq

/-- Error classification in the `catch` of `generateSummary`:
`error.message.includes('rate limit') || ...('quota') || ...('timeout')`. -/
def isCapacityError (emsg : String) : Bool :=
  strIncludes emsg "rate limit" || strIncludes emsg "quota" || strIncludes emsg "timeout"

/-- Result of `generateSummary`: `null` (no content), a summary string, or
the fallback-export notice. -/
inductive GenResult where
  | noContent
  | summary (text : String)
  | fallback (art : FallbackArtifact)
deriving Repr, DecidableEq

/-- The sequential per-chunk loop of `generateChunkedSummary`: one
`generateSummaryForChunk` call per chunk (each trims the model reply), and
the first thrown error aborts the loop.  The second component is the next
call index, so counts of model calls are observable. -/
def runChunkCalls (llm : Nat → LLMReply) : List (List Msg) → Nat → Except String (List String) × Nat
  | [], n => (Except.ok [], n)
  | _chunk :: rest, n =>
    match llm n with
    | .ok t =>
      match runChunkCalls llm rest (n + 1) with
      | (Except.ok ts, n') => (Except.ok (jsTrim t :: ts), n')
      | (Except.error e, n') => (Except.error e, n')
    | .err e => (Except.error e, n + 1)

/-- `generateFinalSummary(chunkSummaries, options)`: the single synthesis call. -/
def generateFinalSummary (llm : Nat → LLMReply) (n : Nat) : Except String String × Nat :=
  match llm n with
  | .ok t => (Except.ok (jsTrim t), n + 1)
  | .err e => (Except.error e, n + 1)

/-- `generateChunkedSummary(messages, options)`.  Its `catch` turns every
error raised while summarizing chunks or synthesizing — capacity-class or
not — into the full-set text-file fallback. -/
def generateChunkedSummary (llm : Nat → LLMReply) (nowTs : Int) (messages : List Msg) (n : Nat) :
    Except String GenResult × Nat :=
  let chunks := chunkMessages messages MAX_MESSAGES_PER_CHUNK
  match runChunkCalls llm chunks n with
  | (Except.ok chunkSummaries, n') =>
    if 1 < chunkSummaries.length then
      match generateFinalSummary llm n' with
      | (Except.ok t, n'') => (Except.ok (GenResult.summary t), n'')
      | (Except.error _e, n'') =>
        (Except.ok (GenResult.fallback (generateTextFileFallback nowTs messages)), n'')
    else
      (Except.ok (GenResult.summary (chunkSummaries.headD "")), n')
  | (Except.error _e, n') =>
    (Except.ok (GenResult.fallback (generateTextFileFallback nowTs messages)), n')

/-- `generateSummary(messages, options)` (`summaryService.js` lines 16-80).
Empty input returns `null`; more than 100 messages, or an estimated token
cost above 3000, routes to chunked mode; otherwise one direct model call is
made, whose thrown error is either recovered into the full-set fallback
(capacity class) or rethrown as the hard error. -/
def generateSummary (llm : Nat → LLMReply) (fmtHM : Int → String) (nowTs : Int)
    (messages : List Msg) (n : Nat) : Except String GenResult × Nat :=
  if messages.isEmpty then (Except.ok GenResult.noContent, n)
  else if MAX_MESSAGES_PER_CHUNK < messages.length then
    generateChunkedSummary llm nowTs messages n
  else
    let formatted := formatMessagesForAI fmtHM messages
    if MAX_TOKENS_PER_REQUEST < estimateTokenCount formatted then
      generateChunkedSummary llm nowTs messages n
    else
      match llm n with
      | .ok t => (Except.ok (GenResult.summary (jsTrim t)), n + 1)
      | .err e =>
        if isCapacityError e then
          (Except.ok (GenResult.fallback (generateTextFileFallback nowTs messages)), n + 1)
        else
          (Except.error "Failed to generate summary. Please try again later.", n + 1)

/-! ## Schedule clock (`database.js` `calculateNextScheduleTime`,
`scheduler.js` `calculateNextRunTime`)

Both functions do `moment().tz(userTimezone)` arithmetic; they are modelled
for the UTC zone (`timezone` defaults to `'UTC'` in `getChatSettings`).
`now` is unix seconds. -/

/-- Start of the calendar day containing `now` (UTC). -/
def dayStart (now : Int) : Int := now - now % 86400

/-- The `moment.hour()` of `now` (UTC). -/
def hourOfDay (now : Int) : Int := now % 86400 / 3600

/-- `moment.day()` of `now` (0 = Sunday; unix day 0 was a Thursday). -/
def dayOfWeek (now : Int) : Int := ((now - now % 86400) / 86400 + 4) % 7

/-- `calculateNextScheduleTime(scheduleType, intervalHours, timezone)`
(`database.js` lines 334-362), used at schedule-creation time: today's
9 AM unless it is already past 9 AM; this week's Sunday 9 AM unless past. -/
def calculateNextScheduleTime (scheduleType : String) (intervalHours : Int) (now : Int) : Int :=
  if scheduleType = "daily" then
    let next9AM := dayStart now + 9 * 3600
    if 9 ≤ hourOfDay now then next9AM + 86400 else next9AM
  else if scheduleType = "weekly" then
    let sunday9AM := dayStart now - dayOfWeek now * 86400 + 9 * 3600
    if 0 < dayOfWeek now ∨ (dayOfWeek now = 0 ∧ 9 ≤ hourOfDay now) then
      sunday9AM + 7 * 86400
    else sunday9AM
  else
    now + intervalHours * 3600

/-- `calculateNextRunTime(chatId, scheduleType, intervalHours)`
(`scheduler.js` lines 100-120), used when rescheduling after a firing:
unconditionally tomorrow 9 AM / the Sunday of next week 9 AM. -/
def calculateNextRunTime (scheduleType : String) (intervalHours : Int) (now : Int) : Int :=
  if scheduleType = "daily" then
    dayStart (now + 86400) + 9 * 3600
  else if scheduleType = "weekly" then
    let t := now + 7 * 86400
    dayStart t - dayOfWeek t * 86400 + 9 * 3600
  else
    now + intervalHours * 3600

/-! ## Scheduler daemon step (`scheduler.js` `processSchedule`) -/

/-- A row of the `schedules` table. -/
structure ScheduleRow where
  id : Nat
  chat_id : Int
  schedule_type : String
  interval_hours : Int
  next_run : Int
  is_active : Bool
deriving Repr, DecidableEq

/-- Outcome of the `generateSummary` call inside `processSchedule`: a
resolved (possibly `null`) value, or a thrown error with its message. -/
inductive GenAttempt where
  | value (s : Option String)
  | raised (emsg : String)
deriving Repr, DecidableEq

/-- Outcome of `bot.sendMessage`. -/
inductive SendAttempt where
  | delivered
  | raised (emsg : String)
deriving Repr, DecidableEq

/-- The truthiness test `summary && summary.trim()` guarding delivery. -/
def summaryNonEmpty : Option String → Bool
  | some s => jsTrim s ≠ ""
  | none => false

/-- The critical-error test of `processSchedule`'s `catch`:
`error.message.includes('chat not found') || error.message.includes('TELEGRAM')`. -/
def isCriticalScheduleError (emsg : String) : Bool :=
  strIncludes emsg "chat not found" || strIncludes emsg "TELEGRAM"

/-- Observable side effects of one `processSchedule(schedule)` step. -/
structure ProcessEffects where
  sentSummary : Bool
  nextRunUpdated : Option Int
  deactivated : Bool
deriving Repr, DecidableEq

/-- `processSchedule(schedule)` (`scheduler.js` lines 58-98).  The
`updateScheduleNextRun` call sits at the end of the `try` block, after
generation and delivery; the `catch` only ever deactivates. -/
def processSchedule (gen : GenAttempt) (send : SendAttempt) (sched : ScheduleRow) (now : Int) :
    ProcessEffects :=
  match gen with
  | .raised e =>
    { sentSummary := false, nextRunUpdated := none, deactivated := isCriticalScheduleError e }
  | .value s =>
    if summaryNonEmpty s then
      match send with
      | .delivered =>
        { sentSummary := true
          nextRunUpdated := some (calculateNextRunTime sched.schedule_type sched.interval_hours now)
          deactivated := false }
      | .raised e =>
        { sentSummary := false, nextRunUpdated := none, deactivated := isCriticalScheduleError e }
    else
      { sentSummary := false
        nextRunUpdated := some (calculateNextRunTime sched.schedule_type sched.interval_hours now)
        deactivated := false }

/-! ## Schedule store (`database.js` `createSchedule` / `deleteSchedule`) -/

/-- `deleteSchedule(chatId, scheduleType = null)`:
`DELETE FROM schedules WHERE chat_id = ? [AND schedule_type = ?]` — note no
`is_active` condition, deactivated rows are deleted too. -/
def deleteSchedule (store : List ScheduleRow) (chatId : Int) (scheduleType : Option String) :
    List ScheduleRow :=
  store.filter fun r =>
    !(decide (r.chat_id = chatId) &&
      (match scheduleType with
       | none => true
       | some t => decide (r.schedule_type = t)))

/-- `createSchedule(chatId, scheduleType, intervalHours)` (`database.js`
lines 308-332): first `deleteSchedule(chatId)`, then insert one row with
`is_active = 1` and `next_run = calculateNextScheduleTime(...)`.  `newId`
models the `AUTOINCREMENT` id, `now` the creation instant. -/
def createSchedule (store : List ScheduleRow) (newId : Nat) (chatId : Int)
    (scheduleType : String) (intervalHours : Int) (now : Int) : List ScheduleRow :=
  deleteSchedule store chatId none ++
    [{ id := newId
       chat_id := chatId
       schedule_type := scheduleType
       interval_hours := intervalHours
       next_run := calculateNextScheduleTime scheduleType intervalHours now
       is_active := true }]

/-! ## Daily quota store (`database.js` `incrementSummaryCount` /
`getDailySummaryCount`) -/

/-- A row of the `summary_logs` table; `UNIQUE(chat_id, summary_date)`. -/
structure QuotaRow where
  chat_id : Int
  summary_date : String
  summary_count : Nat
deriving Repr, DecidableEq

/-- Row-match test for `(chat_id, summary_date)`. -/
def quotaMatches (chatId : Int) (today : String) (r : QuotaRow) : Bool :=
  decide (r.chat_id = chatId) && decide (r.summary_date = today)

/-- `getDailySummaryCount(chatId)`: the stored count for (chat, today), 0 if
no row exists. -/
def getDailySummaryCount (store : List QuotaRow) (chatId : Int) (today : String) : Nat :=
  match store.find? (quotaMatches chatId today) with
  | some r => r.summary_count
  | none => 0

/-- `incrementSummaryCount(chatId)`: the atomic
`INSERT ... ON CONFLICT(chat_id, summary_date) DO UPDATE SET
summary_count = summary_count + 1` upsert.  The `UNIQUE(chat_id,
summary_date)` constraint guarantees at most one matching row, so the
upsert is embedded as: bump the unique matching row if present, insert a
fresh row with count 1 otherwise. -/
def incrementSummaryCount (store : List QuotaRow) (chatId : Int) (today : String) :
    List QuotaRow :=
  match store with
  | [] => [{ chat_id := chatId, summary_date := today, summary_count := 1 }]
  | r :: rest =>
    if quotaMatches chatId today r then
      { r with summary_count := r.summary_count + 1 } :: rest
    else
      r :: incrementSummaryCount rest chatId today

/-! ## Time-window resolution (`commandHandler.js` `parseTimePeriod`)

The three `moment()` calls of the source are taken at one fixed instant
`now` (unix seconds, UTC model: `startOf('day')` is `dayStart`,
`endOf('day').unix()` is the last whole second of the day). -/

/-- The resolved window: `{ start: ..., end: ..., description }`
(`end` renamed `endTime`; it is a keyword in Lean). -/
structure TimeWindow where
  start : Int
  endTime : Int
  description : String
deriving Repr, DecidableEq

/-- Value of consecutive decimal digits, as `parseInt` computes it. -/
def digitsToNat (cs : List Char) : Nat :=
  cs.foldl (fun a c => a * 10 + (c.toNat - 48)) 0

/-- The regex `^(\d+)([hdw])$`: every leading character an ASCII digit (at
least one), the final character `h`, `d` or `w`.  Returns the captured
amount and unit. -/
def matchDuration (s : String) : Option (Nat × Char) :=
  match s.data.getLast? with
  | none => none
  | some u =>
    let digits := s.data.dropLast
    if (u = 'h' ∨ u = 'd' ∨ u = 'w') ∧ digits ≠ [] ∧ digits.all Char.isDigit then
      some (digitsToNat digits, u)
    else none

/-- Seconds of one `h`/`d`/`w` unit. -/
def unitSeconds (u : Char) : Int :=
  if u = 'h' then 3600 else if u = 'd' then 86400 else 604800

/-- `parseTimePeriod(period)` (`commandHandler.js` lines 472-514).  A
missing (`none`) or empty argument becomes `'24h'`; the token is lowercased
before matching; anything unmatched falls back to the last-24-hours window. -/
def parseTimePeriod (period : Option String) (now : Int) : TimeWindow :=
  let p := jsToLower (jsOrElse period "24h")
  if p = "today" then
    { start := dayStart now, endTime := now, description := "Today" }
  else if p = "yesterday" then
    { start := dayStart now - 86400, endTime := dayStart now - 1, description := "Yesterday" }
  else
    match matchDuration p with
    | some (amount, u) =>
      { start := now - amount * unitSeconds u
        endTime := now
        description := "Last " ++ toString amount ++ String.singleton u }
    | none =>
      { start := now - 24 * 3600, endTime := now, description := "Last 24h" }

/-! ## The `/summary` command handler (`commandHandler.js` `handleSummary`)

The handler is embedded as the ordered list of its observable actions plus
the resulting quota store.  `.generate` marks the single
`summaryService.generateSummary` invocation, inside which every
language-model call of the request happens. -/

/-- Observable actions of `handleSummary`, in program order. -/
inductive BotEvent where
  | typingIndicator
  | limitNotice
  | quotaIncrement
  | fetchMessages (start endTime : Int)
  | noMessagesNotice
  | generate
  | summarySent
  | errorNotice
deriving Repr, DecidableEq

/-- `DAILY_LIMIT` (`commandHandler.js` line 37). -/
def DAILY_LIMIT : Nat := 10

/-- `handleSummary(bot, msg, period)` (`commandHandler.js` lines 24-95).
`getMsgs` stands for `db.getMessages(chatId, start, end)`; `gen` is the
outcome of the `generateSummary` call (a `null` or falsy result takes the
no-messages branch, a thrown error the catch branch). -/
def handleSummary (store : List QuotaRow) (chatId : Int) (today : String)
    (period : Option String) (now : Int)
    (getMsgs : Int → Int → List Msg) (gen : GenAttempt) :
    List BotEvent × List QuotaRow :=
  let dailyCount := getDailySummaryCount store chatId today
  if DAILY_LIMIT ≤ dailyCount then
    ([BotEvent.typingIndicator, BotEvent.limitNotice], store)
  else
    let store' := incrementSummaryCount store chatId today
    let tw := parseTimePeriod (some (jsOrElse period "24h")) now
    let messages := getMsgs tw.start tw.endTime
    if messages.length = 0 then
      ([BotEvent.typingIndicator, BotEvent.quotaIncrement,
        BotEvent.fetchMessages tw.start tw.endTime, BotEvent.noMessagesNotice], store')
    else
      match gen with
      | .raised _ =>
        ([BotEvent.typingIndicator, BotEvent.quotaIncrement,
          BotEvent.fetchMessages tw.start tw.endTime, BotEvent.generate,
          BotEvent.errorNotice], store')
      | .value s =>
        if optTruthy s then
          ([BotEvent.typingIndicator, BotEvent.quotaIncrement,
            BotEvent.fetchMessages tw.start tw.endTime, BotEvent.generate,
            BotEvent.summarySent], store')
        else
          ([BotEvent.typingIndicator, BotEvent.quotaIncrement,
            BotEvent.fetchMessages tw.start tw.endTime, BotEvent.generate,
            BotEvent.noMessagesNotice], store')

/-! ## Concrete fixtures used by witnesses and counterexamples -/

/-- A stored message with index-derived id and timestamp. -/
def sampleMsg (i : Nat) : Msg :=
  { message_id := i, username := some "alice", first_name := none,
    text := some "hi", timestamp := 60 * i }

/-- The 250-message input of the spec's chunking scenario. -/
def msgs250 : List Msg := (List.range 250).map sampleMsg

/-- A 101-message input, the smallest shape that routes to chunked mode by count. -/
def msgs101 : List Msg := (List.range 101).map sampleMsg

/-- A one-message input, staying in direct mode. -/
def wMsg : Msg := sampleMsg 0

/-- A due daily schedule row. -/
def schedW : ScheduleRow :=
  { id := 1, chat_id := 5, schedule_type := "daily", interval_hours := 24,
    next_run := 0, is_active := true }

/-- A quota store in which chat 5 has exhausted its 10 daily summaries. -/
def quotaStore10 : List QuotaRow :=
  [{ chat_id := 5, summary_date := "2026-10-12", summary_count := 10 }]

/-- A quota store in which chat 5 has used 3 of its daily summaries. -/
def quotaStore3 : List QuotaRow :=
  [{ chat_id := 5, summary_date := "2026-10-12", summary_count := 3 }]

end SummaryTelegramBot

deriving instance DecidableEq for Except

namespace SummaryTelegramBot

/-! ## Supporting lemmas -/

theorem chunkMessagesAux_fuel_irrel {α : Type} (k : Nat) (hk : 0 < k) :
    ∀ (f₁ : Nat) (l : List α) (f₂ : Nat), l.length ≤ f₁ → l.length ≤ f₂ →
      chunkMessagesAux k f₁ l = chunkMessagesAux k f₂ l := by
  intro f₁
  induction f₁ with
  | zero =>
    intro l f₂ h1 _
    match l with
    | [] => cases f₂ <;> rfl
    | x :: xs => simp at h1
  | succ f ih =>
    intro l f₂ h1 h2
    match l with
    | [] => cases f₂ <;> rfl
    | x :: xs =>
      match f₂ with
      | 0 => simp at h2
      | g + 1 =>
        simp only [chunkMessagesAux]
        congr 1
        have hd : ((x :: xs).drop k).length = xs.length + 1 - k := by
          simp only [List.length_drop, List.length_cons]
        have h1' : xs.length + 1 ≤ f + 1 := by simpa using h1
        have h2' : xs.length + 1 ≤ g + 1 := by simpa using h2
        apply ih
        · rw [hd]; omega
        · rw [hd]; omega

theorem chunkMessages_nil {α : Type} (k : Nat) : chunkMessages ([] : List α) k = [] := rfl

theorem chunkMessages_cons {α : Type} (l : List α) (k : Nat) (hl : l ≠ []) (hk : 0 < k) :
    chunkMessages l k = l.take k :: chunkMessages (l.drop k) k := by
  match l with
  | [] => exact absurd rfl hl
  | x :: xs =>
    show chunkMessagesAux k (xs.length + 1) (x :: xs) = _
    simp only [chunkMessagesAux]
    congr 1
    apply chunkMessagesAux_fuel_irrel k hk
    · simp only [List.length_drop, List.length_cons]
      omega
    · exact Nat.le_refl _

theorem chunkMessages_join {α : Type} (l : List α) (k : Nat) (hk : 0 < k) :
    (chunkMessages l k).flatten = l := by
  suffices H : ∀ (n : Nat) (l : List α), l.length ≤ n → (chunkMessages l k).flatten = l from
    H l.length l (Nat.le_refl _)
  intro n
  induction n with
  | zero =>
    intro l hl
    match l with
    | [] => simp [chunkMessages_nil]
    | x :: xs => simp at hl
  | succ n ih =>
    intro l hl
    match l with
    | [] => simp [chunkMessages_nil]
    | x :: xs =>
      rw [chunkMessages_cons _ k (by simp) hk, List.flatten_cons]
      have hd : ((x :: xs).drop k).length ≤ n := by
        simp only [List.length_drop, List.length_cons]
        simp only [List.length_cons] at hl
        omega
      rw [ih _ hd]
      exact List.take_append_drop k (x :: xs)

theorem chunkMessages_length {α : Type} (l : List α) (k : Nat) (hk : 0 < k) :
    (chunkMessages l k).length = (l.length + k - 1) / k := by
  suffices H : ∀ (n : Nat) (l : List α), l.length ≤ n →
      (chunkMessages l k).length = (l.length + k - 1) / k from H l.length l (Nat.le_refl _)
  intro n
  induction n with
  | zero =>
    intro l hl
    match l with
    | [] =>
      rw [chunkMessages_nil]
      simp only [List.length_nil]
      rw [Nat.div_eq_of_lt (by omega)]
    | x :: xs => simp at hl
  | succ n ih =>
    intro l hl
    match l with
    | [] =>
      rw [chunkMessages_nil]
      simp only [List.length_nil]
      rw [Nat.div_eq_of_lt (by omega)]
    | x :: xs =>
      rw [chunkMessages_cons _ k (by simp) hk]
      have hd : ((x :: xs).drop k).length ≤ n := by
        simp only [List.length_drop, List.length_cons]
        simp only [List.length_cons] at hl
        omega
      have hrec := ih _ hd
      simp only [List.length_cons, List.length_drop] at hrec ⊢
      rw [hrec]
      have hsplit : xs.length + 1 + k - 1 = (xs.length + 1 - 1) + k := by omega
      rw [hsplit, Nat.add_div_right _ hk]
      rcases le_or_lt k (xs.length + 1) with hle | hgt
      · have hx : xs.length + 1 - k + k - 1 = xs.length + 1 - 1 := by omega
        rw [hx]
      · have h0 : xs.length + 1 - k = 0 := by omega
        rw [h0]
        rw [Nat.div_eq_of_lt (by omega), Nat.div_eq_of_lt (by omega)]

theorem chunkMessages_sizes {α : Type} (l : List α) (k : Nat) (hk : 0 < k) :
    ∀ c ∈ chunkMessages l k, c.length ≤ k := by
  suffices H : ∀ (n : Nat) (l : List α), l.length ≤ n →
      ∀ c ∈ chunkMessages l k, c.length ≤ k from H l.length l (Nat.le_refl _)
  intro n
  induction n with
  | zero =>
    intro l hl c hc
    match l with
    | [] => rw [chunkMessages_nil] at hc; simp at hc
    | x :: xs => simp at hl
  | succ n ih =>
    intro l hl c hc
    match l with
    | [] => rw [chunkMessages_nil] at hc; simp at hc
    | x :: xs =>
      rw [chunkMessages_cons _ k (by simp) hk] at hc
      rcases List.mem_cons.mp hc with rfl | hc
      · exact List.length_take_le _ _
      · have hd : ((x :: xs).drop k).length ≤ n := by
          simp only [List.length_drop, List.length_cons]
          simp only [List.length_cons] at hl
          omega
        exact ih _ hd c hc


theorem runChunkCalls_allOk (llm : Nat → LLMReply) (hok : ∀ k, ∃ t, llm k = LLMReply.ok t) :
    ∀ (cs : List (List Msg)) (n : Nat),
      ∃ ts : List String, runChunkCalls llm cs n = (Except.ok ts, n + cs.length) ∧
        ts.length = cs.length := by
  intro cs
  induction cs with
  | nil =>
    intro n
    exact ⟨[], by simp [runChunkCalls], rfl⟩
  | cons c rest ih =>
    intro n
    obtain ⟨t, ht⟩ := hok n
    obtain ⟨ts, hts, hlen⟩ := ih (n + 1)
    refine ⟨jsTrim t :: ts, ?_, by simp [hlen]⟩
    simp only [runChunkCalls, ht, hts]
    rw [Prod.mk.injEq]
    exact ⟨rfl, by rw [List.length_cons]; omega⟩

theorem chunkMessages_shape250 (l : List Msg) (h : l.length = 250) :
    (chunkMessages l 100).map List.length = [100, 100, 50] := by
  have h1 : l ≠ [] := by intro e; rw [e] at h; simp at h
  rw [chunkMessages_cons l 100 h1 (by omega)]
  have hd1 : (l.drop 100).length = 150 := by simp [h]
  have h2 : l.drop 100 ≠ [] := by intro e; rw [e] at hd1; simp at hd1
  rw [chunkMessages_cons _ 100 h2 (by omega)]
  have hd2 : ((l.drop 100).drop 100).length = 50 := by simp only [List.length_drop]; omega
  have h3 : (l.drop 100).drop 100 ≠ [] := by intro e; rw [e] at hd2; simp at hd2
  rw [chunkMessages_cons _ 100 h3 (by omega)]
  have hd3 : (((l.drop 100).drop 100).drop 100).length = 0 := by
    simp only [List.length_drop]; omega
  have h4 : ((l.drop 100).drop 100).drop 100 = [] := List.eq_nil_of_length_eq_zero hd3
  rw [h4, chunkMessages_nil]
  simp [List.length_take, h, hd1, hd2]

theorem MAXc_eq : MAX_MESSAGES_PER_CHUNK = 100 := rfl

theorem MAXt_eq : MAX_TOKENS_PER_REQUEST = 3000 := rfl

theorem generateSummary_direct_err (llm : Nat → LLMReply) (fmtHM : Int → String)
    (nowTs : Int) (messages : List Msg) (n : Nat) (e : String)
    (hne : messages ≠ []) (hlen : messages.length ≤ 100)
    (htok : estimateTokenCount (formatMessagesForAI fmtHM messages) ≤ 3000)
    (he : llm n = LLMReply.err e) :
    generateSummary llm fmtHM nowTs messages n =
      (if isCapacityError e then
        (Except.ok (GenResult.fallback (generateTextFileFallback nowTs messages)), n + 1)
      else
        (Except.error "Failed to generate summary. Please try again later.", n + 1)) := by
  match messages with
  | [] => exact absurd rfl hne
  | x :: xs =>
    simp only [generateSummary, he]
    rw [if_neg (by simp), if_neg (by rw [MAXc_eq]; omega), if_neg (by rw [MAXt_eq]; omega)]

theorem generateChunkedSummary_run_err (llm : Nat → LLMReply) (nowTs : Int)
    (messages : List Msg) (n : Nat) (e : String) (n' : Nat)
    (hts : runChunkCalls llm (chunkMessages messages MAX_MESSAGES_PER_CHUNK) n =
      (Except.error e, n')) :
    generateChunkedSummary llm nowTs messages n =
      (Except.ok (GenResult.fallback (generateTextFileFallback nowTs messages)), n') := by
  simp only [generateChunkedSummary, hts]

theorem generateChunkedSummary_single (llm : Nat → LLMReply) (nowTs : Int)
    (messages : List Msg) (n : Nat) (ts : List String) (n' : Nat)
    (hts : runChunkCalls llm (chunkMessages messages MAX_MESSAGES_PER_CHUNK) n =
      (Except.ok ts, n'))
    (hle : ¬ 1 < ts.length) :
    generateChunkedSummary llm nowTs messages n =
      (Except.ok (GenResult.summary (ts.headD "")), n') := by
  simp only [generateChunkedSummary, hts, if_neg hle]

theorem generateChunkedSummary_synth_ok (llm : Nat → LLMReply) (nowTs : Int)
    (messages : List Msg) (n : Nat) (ts : List String) (n' : Nat) (t : String)
    (hts : runChunkCalls llm (chunkMessages messages MAX_MESSAGES_PER_CHUNK) n =
      (Except.ok ts, n'))
    (hgt : 1 < ts.length) (ht : llm n' = LLMReply.ok t) :
    generateChunkedSummary llm nowTs messages n =
      (Except.ok (GenResult.summary (jsTrim t)), n' + 1) := by
  simp only [generateChunkedSummary, hts, if_pos hgt, generateFinalSummary, ht]

theorem generateChunkedSummary_synth_err (llm : Nat → LLMReply) (nowTs : Int)
    (messages : List Msg) (n : Nat) (ts : List String) (n' : Nat) (e : String)
    (hts : runChunkCalls llm (chunkMessages messages MAX_MESSAGES_PER_CHUNK) n =
      (Except.ok ts, n'))
    (hgt : 1 < ts.length) (ht : llm n' = LLMReply.err e) :
    generateChunkedSummary llm nowTs messages n =
      (Except.ok (GenResult.fallback (generateTextFileFallback nowTs messages)), n' + 1) := by
  simp only [generateChunkedSummary, hts, if_pos hgt, generateFinalSummary, ht]

theorem generateSummary_routes_chunked (llm : Nat → LLMReply) (fmtHM : Int → String)
    (nowTs : Int) (messages : List Msg) (n : Nat) (hlen : 100 < messages.length) :
    generateSummary llm fmtHM nowTs messages n = generateChunkedSummary llm nowTs messages n := by
  match messages with
  | [] => simp at hlen
  | x :: xs =>
    rw [generateSummary, if_neg (by simp), if_pos (by rw [MAXc_eq]; exact hlen)]

/-! ## Claims -/

/-- C2: for every message array of length `L`, `chunkMessages` with chunk
size 100 produces exactly `⌈L/100⌉` chunks, each chunk holds at most 100
messages, and concatenating the chunks in order reconstructs the original
array (so chunks are contiguous sub-sequences in the original order). -/
theorem claim2_chunkMessages_partition (l : List Msg) :
    (chunkMessages l 100).length = (l.length + 99) / 100 ∧
    (∀ c ∈ chunkMessages l 100, c.length ≤ 100) ∧
    (chunkMessages l 100).flatten = l := by
  refine ⟨?_, chunkMessages_sizes l 100 (by omega), chunkMessages_join l 100 (by omega)⟩
  have h := chunkMessages_length l 100 (by omega)
  have e : l.length + 100 - 1 = l.length + 99 := by omega
  rw [h, e]

/-- C1: in chunked mode the pipeline makes exactly one model call per chunk
plus one synthesis call exactly when more than one chunk was produced; a
single chunk's summary is returned directly with no synthesis call; and an
input of 250 messages yields chunks of sizes 100, 100, 50 and exactly 4
model calls in total. -/
theorem claim1_chunked_one_call_per_chunk (llm : Nat → LLMReply) (fmtHM : Int → String)
    (nowTs : Int) (messages : List Msg) (n : Nat)
    (hok : ∀ k, ∃ t, llm k = LLMReply.ok t) :
    ((generateChunkedSummary llm nowTs messages n).2 =
        n + (chunkMessages messages 100).length +
          (if 1 < (chunkMessages messages 100).length then 1 else 0)) ∧
    ((chunkMessages messages 100).length = 1 →
      ∀ t, llm n = LLMReply.ok t →
        generateChunkedSummary llm nowTs messages n =
          (Except.ok (GenResult.summary (jsTrim t)), n + 1)) ∧
    (100 < messages.length →
      generateSummary llm fmtHM nowTs messages n = generateChunkedSummary llm nowTs messages n) ∧
    (messages.length = 250 →
      (chunkMessages messages 100).map List.length = [100, 100, 50] ∧
      (generateSummary llm fmtHM nowTs messages n).2 = n + 4) := by
  obtain ⟨ts, hts0, hlen⟩ := runChunkCalls_allOk llm hok (chunkMessages messages 100) n
  have hts : runChunkCalls llm (chunkMessages messages MAX_MESSAGES_PER_CHUNK) n =
      (Except.ok ts, n + (chunkMessages messages 100).length) := by rw [MAXc_eq]; exact hts0
  have hchunk : (generateChunkedSummary llm nowTs messages n).2 =
      n + (chunkMessages messages 100).length +
        (if 1 < (chunkMessages messages 100).length then 1 else 0) := by
    by_cases hgt : 1 < ts.length
    · obtain ⟨t, ht⟩ := hok (n + (chunkMessages messages 100).length)
      rw [generateChunkedSummary_synth_ok llm nowTs messages n ts _ t hts hgt ht]
      rw [if_pos (by rw [← hlen]; exact hgt)]
    · rw [generateChunkedSummary_single llm nowTs messages n ts _ hts hgt]
      rw [if_neg (by rw [← hlen]; exact hgt)]
      simp
  refine ⟨hchunk, ?_, generateSummary_routes_chunked llm fmtHM nowTs messages n, ?_⟩
  · intro hone t ht
    have hts1 : runChunkCalls llm (chunkMessages messages MAX_MESSAGES_PER_CHUNK) n =
        (Except.ok ts, n + 1) := by rw [hts, hone]
    have hcount : ts.length = 1 := by rw [hlen]; exact hone
    obtain ⟨s, hs⟩ := List.length_eq_one.mp hcount
    have hsingle := generateChunkedSummary_single llm nowTs messages n ts _ hts1
      (by rw [hcount]; omega)
    obtain ⟨c, hc⟩ := List.length_eq_one.mp hone
    have hrun : runChunkCalls llm (chunkMessages messages MAX_MESSAGES_PER_CHUNK) n =
        (Except.ok [jsTrim t], n + 1) := by
      rw [MAXc_eq, hc]
      simp [runChunkCalls, ht]
    rw [hts1] at hrun
    have hsval : ts = [jsTrim t] := by
      have := congrArg Prod.fst hrun
      simpa using this
    rw [hsingle, hsval]
    rfl
  · intro h250
    have hshape := chunkMessages_shape250 messages h250
    have hthree : (chunkMessages messages 100).length = 3 := by
      have := congrArg List.length hshape
      simpa using this
    refine ⟨hshape, ?_⟩
    rw [generateSummary_routes_chunked llm fmtHM nowTs messages n (by omega), hchunk, hthree]
    norm_num

/-- C1 witness: a concrete 250-message run with an always-succeeding model
makes chunks of sizes 100, 100, 50 and exactly 4 model calls. -/
theorem claim1_witness :
    (chunkMessages msgs250 100).map List.length = [100, 100, 50] ∧
    (generateSummary (fun _ => LLMReply.ok "done") (fun _ => "10:00") 0 msgs250 0).2 = 0 + 4 :=
  (claim1_chunked_one_call_per_chunk (fun _ => LLMReply.ok "done") (fun _ => "10:00") 0 msgs250 0
    (fun _ => ⟨"done", rfl⟩)).2.2.2 (by simp [msgs250])

/-- C3 counterexample: in chunked mode (101 messages) a model error of a
non-capacity class ("boom") does not propagate as a hard error — the
`catch` of `generateChunkedSummary` produces the full-set fallback export
instead. -/
theorem claim3_counterexample :
    isCapacityError "boom" = false ∧
    (generateSummary (fun _ => LLMReply.err "boom") (fun _ => "10:00") 0 msgs101 0).1 =
      Except.ok (GenResult.fallback (generateTextFileFallback 0 msgs101)) := by
  refine ⟨by decide, ?_⟩
  decide

/-- C3 (amended): a capacity-class model failure in direct mode, and every
model failure at any point of chunked mode (capacity-class or not), degrades
into the fallback export rendered from the entire input message set, tagged
with the generation timestamp, the total message count and the covering time
range; only a non-capacity failure of the single direct-mode call propagates
as the hard error. -/
theorem claim3_error_routing (llm : Nat → LLMReply) (fmtHM : Int → String)
    (nowTs : Int) (messages : List Msg) (n : Nat) (hne : messages ≠ []) :
    (messages.length ≤ 100 →
      estimateTokenCount (formatMessagesForAI fmtHM messages) ≤ 3000 →
      ∀ e, llm n = LLMReply.err e →
        (isCapacityError e = true →
          generateSummary llm fmtHM nowTs messages n =
            (Except.ok (GenResult.fallback (generateTextFileFallback nowTs messages)), n + 1)) ∧
        (isCapacityError e = false →
          generateSummary llm fmtHM nowTs messages n =
            (Except.error "Failed to generate summary. Please try again later.", n + 1))) ∧
    (100 < messages.length →
      generateSummary llm fmtHM nowTs messages n = generateChunkedSummary llm nowTs messages n) ∧
    (∀ e n', runChunkCalls llm (chunkMessages messages 100) n = (Except.error e, n') →
      generateChunkedSummary llm nowTs messages n =
        (Except.ok (GenResult.fallback (generateTextFileFallback nowTs messages)), n')) ∧
    (∀ ts n' e, runChunkCalls llm (chunkMessages messages 100) n = (Except.ok ts, n') →
      1 < ts.length → llm n' = LLMReply.err e →
      generateChunkedSummary llm nowTs messages n =
        (Except.ok (GenResult.fallback (generateTextFileFallback nowTs messages)), n' + 1)) ∧
    (∀ r, (generateChunkedSummary llm nowTs messages n).1 ≠ Except.error r) ∧
    (generateTextFileFallback nowTs messages).generatedAt = nowTs ∧
    (generateTextFileFallback nowTs messages).totalMessages = messages.length ∧
    (generateTextFileFallback nowTs messages).timeRange =
      some ((messages.head hne).timestamp, (messages.getLast hne).timestamp) := by
  refine ⟨?_, generateSummary_routes_chunked llm fmtHM nowTs messages n, ?_, ?_, ?_, rfl, rfl, ?_⟩
  · intro hlen htok e he
    constructor
    · intro hcap
      rw [generateSummary_direct_err llm fmtHM nowTs messages n e hne hlen htok he, if_pos hcap]
    · intro hcap
      rw [generateSummary_direct_err llm fmtHM nowTs messages n e hne hlen htok he,
        if_neg (by rw [hcap]; exact Bool.false_ne_true)]
  · intro e n' hrc
    exact generateChunkedSummary_run_err llm nowTs messages n e n' (by rw [MAXc_eq]; exact hrc)
  · intro ts n' e hrc hgt he
    exact generateChunkedSummary_synth_err llm nowTs messages n ts n' e
      (by rw [MAXc_eq]; exact hrc) hgt he
  · intro r
    rcases hrc : runChunkCalls llm (chunkMessages messages MAX_MESSAGES_PER_CHUNK) n with ⟨res, n'⟩
    match res with
    | Except.error e =>
      rw [generateChunkedSummary_run_err llm nowTs messages n e n' hrc]
      simp
    | Except.ok ts =>
      by_cases hgt : 1 < ts.length
      · match hl : llm n' with
        | LLMReply.ok t =>
          rw [generateChunkedSummary_synth_ok llm nowTs messages n ts n' t hrc hgt hl]
          simp
        | LLMReply.err e =>
          rw [generateChunkedSummary_synth_err llm nowTs messages n ts n' e hrc hgt hl]
          simp
      · rw [generateChunkedSummary_single llm nowTs messages n ts n' hrc hgt]
        simp
  · rw [generateTextFileFallback]
    show getTimeRange messages = _
    rw [getTimeRange, List.head?_eq_head hne, List.getLast?_eq_getLast messages hne]

/-- C3 witness: a direct-mode run whose single model call fails with a
rate-limit error returns the fallback export over the full input. -/
theorem claim3_witness :
    generateSummary (fun _ => LLMReply.err "rate limit exceeded") (fun _ => "10:00") 7 [wMsg] 0 =
      (Except.ok (GenResult.fallback (generateTextFileFallback 7 [wMsg])), 0 + 1) :=
  ((claim3_error_routing (fun _ => LLMReply.err "rate limit exceeded") (fun _ => "10:00") 7 [wMsg] 0
      (by decide)).1 (by decide) (by decide) "rate limit exceeded" rfl).1 (by decide)

/-- C4 counterexample: at creation time with now = 08:00 UTC the computed
next run is 09:00 of the same day (3600 s ahead, today's 9 AM), and at
post-fire reschedule time with now = 10:00 UTC the result is 23 h ahead —
both contradict "never today's 9 AM" / "at least a full day ahead". -/
theorem claim4_counterexample :
    calculateNextScheduleTime "daily" 24 28800 = 32400 ∧
    calculateNextScheduleTime "daily" 24 28800 - 28800 = 3600 ∧
    calculateNextRunTime "daily" 24 36000 = 118800 ∧
    calculateNextRunTime "daily" 24 36000 - 36000 = 82800 := by
  refine ⟨by decide, by decide, by decide, by decide⟩

/-- C4 (amended): for a daily schedule, schedule-creation time
(`calculateNextScheduleTime`) returns today's 09:00 when now is before
09:00 in the (UTC-modelled) user timezone and tomorrow's 09:00 otherwise,
while post-fire rescheduling (`calculateNextRunTime`) unconditionally
returns the next day's 09:00; both results are strictly after now, but may
be less than 24 hours ahead. -/
theorem claim4_daily_next_run (now : Int) (ihrs : Int) :
    (hourOfDay now < 9 →
      calculateNextScheduleTime "daily" ihrs now = dayStart now + 9 * 3600) ∧
    (9 ≤ hourOfDay now →
      calculateNextScheduleTime "daily" ihrs now = dayStart now + 9 * 3600 + 86400) ∧
    now < calculateNextScheduleTime "daily" ihrs now ∧
    calculateNextRunTime "daily" ihrs now = dayStart now + 86400 + 9 * 3600 ∧
    now < calculateNextRunTime "daily" ihrs now := by
  have hcalc : calculateNextScheduleTime "daily" ihrs now =
      if 9 ≤ hourOfDay now then dayStart now + 9 * 3600 + 86400
      else dayStart now + 9 * 3600 := by
    simp only [calculateNextScheduleTime]
    rw [if_pos trivial]
  have hrun : calculateNextRunTime "daily" ihrs now = dayStart now + 86400 + 9 * 3600 := by
    simp only [calculateNextRunTime]
    rw [if_pos trivial]
    unfold dayStart
    omega
  refine ⟨?_, ?_, ?_, hrun, ?_⟩
  · intro h
    rw [hcalc, if_neg (by omega)]
  · intro h
    rw [hcalc, if_pos h]
  · rw [hcalc]
    split_ifs with h <;> unfold hourOfDay at h <;> unfold dayStart <;> omega
  · rw [hrun]
    unfold dayStart
    omega

/-- C4 witness: at now = 10:00 UTC on the epoch day, creation-time and
reschedule-time both give the next day's 09:00, strictly after now. -/
theorem claim4_witness :
    calculateNextScheduleTime "daily" 24 36000 = dayStart 36000 + 9 * 3600 + 86400 ∧
    (36000 : Int) < calculateNextScheduleTime "daily" 24 36000 ∧
    calculateNextRunTime "daily" 24 36000 = dayStart 36000 + 86400 + 9 * 3600 := by
  have h := claim4_daily_next_run 36000 24
  exact ⟨h.2.1 (by decide), h.2.2.1, h.2.2.2.1⟩

/-- C5 counterexample: when `generateSummary` throws a non-fatal hard error
the `processSchedule` step performs no `updateScheduleNextRun` call at all —
the update sits at the end of the `try` block, not in a `finally`. -/
theorem claim5_counterexample :
    (processSchedule (GenAttempt.raised "Failed to generate summary. Please try again later.")
        SendAttempt.delivered schedW 36000).nextRunUpdated = none ∧
    isCriticalScheduleError "Failed to generate summary. Please try again later." = false := by
  exact ⟨rfl, by decide⟩

/-- C5 (amended): the scheduler persists a recomputed `next_run` exactly
when the step completes without an exception — including when generation
returned no content and delivery was skipped; if generation or delivery
throws, the update is skipped and the schedule is deactivated only when the
error message marks the chat as permanently unreachable. -/
theorem claim5_next_run_update (gen : GenAttempt) (send : SendAttempt)
    (sched : ScheduleRow) (now : Int) :
    ((∃ s, gen = GenAttempt.value s ∧
        (summaryNonEmpty s = false ∨ send = SendAttempt.delivered)) →
      (processSchedule gen send sched now).nextRunUpdated =
        some (calculateNextRunTime sched.schedule_type sched.interval_hours now)) ∧
    (∀ e, gen = GenAttempt.raised e →
      (processSchedule gen send sched now).nextRunUpdated = none ∧
      (processSchedule gen send sched now).deactivated = isCriticalScheduleError e) ∧
    (∀ s e, gen = GenAttempt.value s → summaryNonEmpty s = true →
      send = SendAttempt.raised e →
      (processSchedule gen send sched now).nextRunUpdated = none ∧
      (processSchedule gen send sched now).deactivated = isCriticalScheduleError e) := by
  refine ⟨?_, ?_, ?_⟩
  · rintro ⟨s, rfl, hcase⟩
    rcases hcase with hfalse | rfl
    · simp [processSchedule, hfalse]
    · by_cases hs : summaryNonEmpty s <;> simp [processSchedule, hs]
  · rintro e rfl
    exact ⟨rfl, rfl⟩
  · rintro s e rfl hs rfl
    simp [processSchedule, hs]

/-- C5 witness: a delivered non-empty summary leads to a persisted
recomputed next_run for the concrete daily schedule. -/
theorem claim5_witness :
    (processSchedule (GenAttempt.value (some "hello")) SendAttempt.delivered
        schedW 36000).nextRunUpdated =
      some (calculateNextRunTime schedW.schedule_type schedW.interval_hours 36000) :=
  (claim5_next_run_update (GenAttempt.value (some "hello")) SendAttempt.delivered schedW 36000).1
    ⟨some "hello", rfl, Or.inr rfl⟩

theorem deleteSchedule_mem_ne (store : List ScheduleRow) (chatId : Int) :
    ∀ r ∈ deleteSchedule store chatId none, ¬ r.chat_id = chatId := by
  intro r hr
  rw [deleteSchedule, List.mem_filter] at hr
  have h2 := hr.2
  simp at h2
  exact h2

theorem deleteSchedule_removes_chat (store : List ScheduleRow) (chatId : Int) :
    (deleteSchedule store chatId none).filter (fun r => decide (r.chat_id = chatId)) = [] := by
  rw [List.filter_eq_nil_iff]
  intro r hr
  simp [deleteSchedule_mem_ne store chatId r hr]

theorem deleteSchedule_removes_chatActive (store : List ScheduleRow) (chatId : Int) :
    (deleteSchedule store chatId none).filter
      (fun r => decide (r.chat_id = chatId) && r.is_active) = [] := by
  rw [List.filter_eq_nil_iff]
  intro r hr
  simp [deleteSchedule_mem_ne store chatId r hr]

theorem createSchedule_chat_rows (store : List ScheduleRow) (newId : Nat) (chatId : Int)
    (ty : String) (ihrs now : Int) :
    (createSchedule store newId chatId ty ihrs now).filter
        (fun r => decide (r.chat_id = chatId)) =
      [{ id := newId, chat_id := chatId, schedule_type := ty, interval_hours := ihrs,
         next_run := calculateNextScheduleTime ty ihrs now, is_active := true }] := by
  rw [createSchedule, List.filter_append, deleteSchedule_removes_chat]
  simp

theorem createSchedule_chatActive_rows (store : List ScheduleRow) (newId : Nat) (chatId : Int)
    (ty : String) (ihrs now : Int) :
    (createSchedule store newId chatId ty ihrs now).filter
        (fun r => decide (r.chat_id = chatId) && r.is_active) =
      [{ id := newId, chat_id := chatId, schedule_type := ty, interval_hours := ihrs,
         next_run := calculateNextScheduleTime ty ihrs now, is_active := true }] := by
  rw [createSchedule, List.filter_append, deleteSchedule_removes_chatActive]
  simp

/-- C6: `createSchedule` first removes every schedule of the chat and then
inserts the new one active, so after one call — and in particular after two
calls in succession for the same chat — exactly one active schedule exists
for that chat, whatever the store held before. -/
theorem claim6_one_active_schedule (store : List ScheduleRow) (id1 id2 : Nat) (chatId : Int)
    (ty1 ty2 : String) (ih1 ih2 t1 t2 : Int) :
    ((createSchedule store id1 chatId ty1 ih1 t1).filter
        (fun r => decide (r.chat_id = chatId) && r.is_active)).length = 1 ∧
    ((createSchedule (createSchedule store id1 chatId ty1 ih1 t1) id2 chatId ty2 ih2 t2).filter
        (fun r => decide (r.chat_id = chatId) && r.is_active)).length = 1 := by
  constructor
  · rw [createSchedule_chatActive_rows]
    rfl
  · rw [createSchedule_chatActive_rows]
    rfl

/-- C10: after `createSchedule` exactly one row for the chat remains in the
store — the fresh active one — regardless of how many rows, active or
deactivated, existed before, because the `deleteSchedule` it calls removes
every row of the chat (no `is_active` condition in its `DELETE`). -/
theorem claim10_create_schedule_resets_rows (store : List ScheduleRow) (newId : Nat)
    (chatId : Int) (ty : String) (ihrs now : Int) :
    (createSchedule store newId chatId ty ihrs now).filter
        (fun r => decide (r.chat_id = chatId)) =
      [{ id := newId, chat_id := chatId, schedule_type := ty, interval_hours := ihrs,
         next_run := calculateNextScheduleTime ty ihrs now, is_active := true }] ∧
    (deleteSchedule store chatId none).filter (fun r => decide (r.chat_id = chatId)) = [] :=
  ⟨createSchedule_chat_rows store newId chatId ty ihrs now,
   deleteSchedule_removes_chat store chatId⟩

theorem getDailySummaryCount_increment (store : List QuotaRow) (chatId : Int) (today : String) :
    getDailySummaryCount (incrementSummaryCount store chatId today) chatId today =
      getDailySummaryCount store chatId today + 1 := by
  induction store with
  | nil =>
    simp [incrementSummaryCount, getDailySummaryCount, List.find?, quotaMatches]
  | cons r rest ih =>
    by_cases hm : quotaMatches chatId today r = true
    · rw [incrementSummaryCount, if_pos hm]
      have hup : quotaMatches chatId today { r with summary_count := r.summary_count + 1 } = true :=
        hm
      rw [getDailySummaryCount, List.find?_cons_of_pos _ hup,
        getDailySummaryCount, List.find?_cons_of_pos _ hm]
    · have hm' : quotaMatches chatId today r = false := by
        revert hm
        cases quotaMatches chatId today r <;> simp
      rw [incrementSummaryCount, if_neg (by rw [hm']; exact Bool.false_ne_true)]
      rw [getDailySummaryCount, List.find?_cons_of_neg _ (by rw [hm']; exact Bool.false_ne_true),
        getDailySummaryCount, List.find?_cons_of_neg _ (by rw [hm']; exact Bool.false_ne_true)]
      exact ih

/-- C7: once 10 summary generations are recorded for (chat, date), the next
`/summary` request is rejected with the limit notice — before any quota
increment, before the message fetch, and before the generation call that
performs the model calls. -/
theorem claim7_quota_rejection (store : List QuotaRow) (chatId : Int) (today : String)
    (period : Option String) (now : Int) (getMsgs : Int → Int → List Msg) (gen : GenAttempt)
    (h10 : getDailySummaryCount store chatId today = 10) :
    handleSummary store chatId today period now getMsgs gen =
      ([BotEvent.typingIndicator, BotEvent.limitNotice], store) ∧
    BotEvent.quotaIncrement ∉ (handleSummary store chatId today period now getMsgs gen).1 ∧
    (∀ a b, BotEvent.fetchMessages a b ∉
      (handleSummary store chatId today period now getMsgs gen).1) ∧
    BotEvent.generate ∉ (handleSummary store chatId today period now getMsgs gen).1 := by
  have heq : handleSummary store chatId today period now getMsgs gen =
      ([BotEvent.typingIndicator, BotEvent.limitNotice], store) := by
    rw [handleSummary, h10]
    rw [if_pos (by rw [DAILY_LIMIT])]
  refine ⟨heq, ?_, ?_, ?_⟩
  · rw [heq]; simp
  · intro a b
    rw [heq]
    simp
  · rw [heq]; simp

/-- C7 witness: chat 5 with 10 recorded generations today is served only the
limit notice and the quota store is untouched. -/
theorem claim7_witness :
    handleSummary quotaStore10 5 "2026-10-12" (some "24h") 0 (fun _ _ => [wMsg])
        (GenAttempt.value (some "s")) =
      ([BotEvent.typingIndicator, BotEvent.limitNotice], quotaStore10) :=
  (claim7_quota_rejection quotaStore10 5 "2026-10-12" (some "24h") 0 (fun _ _ => [wMsg])
    (GenAttempt.value (some "s")) (by decide)).1

/-- C9: every request that passes the quota check stores count + 1 for
(chat, today), with the increment placed directly after the check — before
the message fetch and before the generation call — and no later branch of
the handler undoes it: an empty window, a failed generation and a delivered
summary all leave the incremented store. -/
theorem claim9_quota_consumed (store : List QuotaRow) (chatId : Int) (today : String)
    (period : Option String) (now : Int) (getMsgs : Int → Int → List Msg) (gen : GenAttempt)
    (hlt : getDailySummaryCount store chatId today < 10) :
    (handleSummary store chatId today period now getMsgs gen).2 =
      incrementSummaryCount store chatId today ∧
    getDailySummaryCount (handleSummary store chatId today period now getMsgs gen).2
        chatId today = getDailySummaryCount store chatId today + 1 ∧
    (∃ tail, (handleSummary store chatId today period now getMsgs gen).1 =
        BotEvent.typingIndicator :: BotEvent.quotaIncrement ::
          BotEvent.fetchMessages (parseTimePeriod (some (jsOrElse period "24h")) now).start
            (parseTimePeriod (some (jsOrElse period "24h")) now).endTime :: tail ∧
        BotEvent.quotaIncrement ∉ tail ∧ BotEvent.limitNotice ∉ tail) := by
  have hcond : ¬ DAILY_LIMIT ≤ getDailySummaryCount store chatId today := by
    rw [DAILY_LIMIT]; omega
  simp only [handleSummary]
  rw [if_neg hcond]
  by_cases hm : (getMsgs (parseTimePeriod (some (jsOrElse period "24h")) now).start
      (parseTimePeriod (some (jsOrElse period "24h")) now).endTime).length = 0
  · rw [if_pos hm]
    exact ⟨rfl, getDailySummaryCount_increment store chatId today,
      [BotEvent.noMessagesNotice], rfl, by decide, by decide⟩
  · rw [if_neg hm]
    match gen with
    | GenAttempt.raised e =>
      exact ⟨rfl, getDailySummaryCount_increment store chatId today,
        [BotEvent.generate, BotEvent.errorNotice], rfl, by decide, by decide⟩
    | GenAttempt.value s =>
      simp only []
      by_cases hs : optTruthy s = true
      · rw [if_pos hs]
        exact ⟨rfl, getDailySummaryCount_increment store chatId today,
          [BotEvent.generate, BotEvent.summarySent], rfl, by decide, by decide⟩
      · rw [if_neg hs]
        exact ⟨rfl, getDailySummaryCount_increment store chatId today,
          [BotEvent.generate, BotEvent.noMessagesNotice], rfl, by decide, by decide⟩

/-- C9 witness: chat 5 at count 3 requests a summary over an empty window;
the request still consumes a slot — the stored count becomes 4. -/
theorem claim9_witness :
    (handleSummary quotaStore3 5 "2026-10-12" none 36000 (fun _ _ => [])
        (GenAttempt.value (some "s"))).2 =
      incrementSummaryCount quotaStore3 5 "2026-10-12" ∧
    getDailySummaryCount (handleSummary quotaStore3 5 "2026-10-12" none 36000 (fun _ _ => [])
        (GenAttempt.value (some "s"))).2 5 "2026-10-12" =
      getDailySummaryCount quotaStore3 5 "2026-10-12" + 1 := by
  have h := claim9_quota_consumed quotaStore3 5 "2026-10-12" none 36000 (fun _ _ => [])
    (GenAttempt.value (some "s")) (by decide)
  exact ⟨h.1, h.2.1⟩

theorem parseTimePeriod_24h (now : Int) :
    parseTimePeriod (some "24h") now =
      { start := now - 24 * 3600, endTime := now, description := "Last 24h" } := rfl

/-- C8 counterexample: the token `'TODAY'` is not the literal `'today'`, not
`'yesterday'`, and does not match `^\d+[hdw]$`, yet `parseTimePeriod` does
not fall back to the 24-hour window — the source lowercases the token first
and resolves it as the Today window. -/
theorem claim8_counterexample :
    ("TODAY" ≠ "today" ∧ "TODAY" ≠ "yesterday" ∧ matchDuration "TODAY" = none) ∧
    parseTimePeriod (some "TODAY") 36000 ≠ parseTimePeriod (some "24h") 36000 ∧
    parseTimePeriod (some "TODAY") 36000 =
      { start := 0, endTime := 36000, description := "Today" } := by
  refine ⟨by decide, by decide, by decide⟩

/-- C8 (amended): for every period token that is absent, empty, or whose
lowercased form is neither `today` nor `yesterday` and does not match
`^\d+[hdw]$`, `parseTimePeriod` at a fixed now returns exactly the result of
`parseTimePeriod '24h'` at that now: start = now − 24 h, end = now,
description `Last 24h`. -/
theorem claim8_fallback_window (p : Option String) (now : Int)
    (h : ∀ s, p = some s → jsToLower s ≠ "today" ∧ jsToLower s ≠ "yesterday" ∧
        matchDuration (jsToLower s) = none) :
    parseTimePeriod p now = parseTimePeriod (some "24h") now ∧
    parseTimePeriod p now =
      { start := now - 24 * 3600, endTime := now, description := "Last 24h" } := by
  suffices hp : parseTimePeriod p now =
      { start := now - 24 * 3600, endTime := now, description := "Last 24h" } from
    ⟨by rw [hp, parseTimePeriod_24h], hp⟩
  match p with
  | none => exact parseTimePeriod_24h now
  | some s =>
    obtain ⟨ht, hy, hd⟩ := h s rfl
    by_cases hempty : s = ""
    · subst hempty
      exact parseTimePeriod_24h now
    · have hor : jsOrElse (some s) "24h" = s := if_neg hempty
      simp only [parseTimePeriod]
      rw [hor, if_neg ht, if_neg hy, hd]

/-- C8 witness: a garbage token resolves to exactly the 24-hour window. -/
theorem claim8_witness :
    parseTimePeriod (some "garbage!") 5000 = parseTimePeriod (some "24h") 5000 ∧
    parseTimePeriod (some "garbage!") 5000 =
      { start := 5000 - 24 * 3600, endTime := 5000, description := "Last 24h" } :=
  claim8_fallback_window (some "garbage!") 5000 (fun s hs => by
    rw [Option.some.injEq] at hs
    subst hs
    exact ⟨by decide, by decide, by decide⟩)

end SummaryTelegramBot
